import Mathlib

/-!
Verification of the request-orchestration core of sigoEngine.go (SIGO).

This file gives a shallow embedding, in Lean, of the stateful core of the
Go source: the session model and context builder, the circuit breaker, the
retry loop of main, the provider dispatch and response extraction of
callAPI, and the output/session-persistence epilogue of main.  Time is
modelled as an integer count of nanoseconds (Go time.Duration units); the
remote provider is abstracted as a function from invocation index to a
result, and the context deadline as an integer instant.  All definitions
are computable so that concrete runs can be evaluated inside proofs.
-/

namespace Sigo

/-- One conversation turn (struct Message, sigoEngine.go lines 56-59):
a role string ("user" or "assistant") and a content string. -/
structure Message where
  role    : String
  content : String
  deriving DecidableEq, Repr

/-- A session: an ordered history of turns (struct Session, lines 52-54). -/
structure Session where
  history : List Message
  deriving DecidableEq, Repr

/-- Session.addMessage (lines 145-152): append the new turn, then, when the
history exceeds 20 entries, keep only the final 20
(Go slice expression History[len(History)-20:]). -/
def Session.addMessage (s : Session) (role content : String) : Session :=
  let h := s.history ++ [⟨role, content⟩]
  if h.length > 20 then ⟨h.drop (h.length - 20)⟩ else ⟨h⟩

/-- Session.buildPrompt (lines 155-174): empty history returns the new
prompt unchanged; otherwise each turn is rendered with a "Human: " tag for
role "user" and an "Assistant: " tag for every other role, followed by the
content and a blank line, and the flattened context ends with
"Human: " plus the new prompt. -/
def Session.buildPrompt (s : Session) (newPrompt : String) : String :=
  if s.history.length = 0 then newPrompt
  else
    (s.history.foldl
      (fun acc msg =>
        acc ++ (if msg.role = "user" then "Human: " else "Assistant: ")
            ++ msg.content ++ "\n\n") "")
      ++ "Human: " ++ newPrompt

/-- Nanoseconds per second: the Go time.Duration unit conversion. -/
def nsPerSec : Int := 1000000000

/-- Circuit breaker state (struct CircuitBreaker, lines 73-79), with times
as integer nanosecond instants.  The Go mutex only serialises access and
has no sequential semantics, so it is not modelled. -/
structure CircuitBreaker where
  failures  : Nat
  lastFail  : Int
  threshold : Nat
  timeout   : Int
  deriving DecidableEq, Repr

/-- NewCircuitBreaker (lines 82-87): threshold 3, cooldown 5 minutes,
zero failures.  Go leaves lastFail at the zero Time; it is modelled as
instant 0 (on a fresh breaker the reset branch is a no-op either way,
since the failure counter is already 0). -/
def NewCircuitBreaker : CircuitBreaker :=
  { failures := 0, lastFail := 0, threshold := 3, timeout := 5 * 60 * nsPerSec }

/-- Result of one CircuitBreaker.Do call: the returned error (none on
success), the updated breaker state, and whether the wrapped operation
was invoked at all. -/
structure DoResult where
  err     : Option String
  cb      : CircuitBreaker
  invoked : Bool
  deriving DecidableEq, Repr

/-- CircuitBreaker.Do (lines 90-111).  The wrapped Go closure returns an
error or nil and, on success, carries a response text as a side effect;
it is passed here as an Except value.  Steps, in source order: reset the
failure counter when the time since the last failure exceeds the cooldown;
reject with "circuit open" when the counter has reached the threshold;
otherwise run the operation, incrementing the counter and stamping the
failure time on error, resetting the counter on success. -/
def CircuitBreaker.Do (cb : CircuitBreaker) (now : Int) (fn : Except String String) :
    DoResult :=
  let cb1 := if cb.timeout < now - cb.lastFail then { cb with failures := 0 } else cb
  if cb1.threshold ≤ cb1.failures then
    { err := some "circuit open", cb := cb1, invoked := false }
  else
    match fn with
    | .error e =>
        { err := some e
          cb := { cb1 with failures := cb1.failures + 1, lastFail := now }
          invoked := true }
    | .ok _ =>
        { err := none, cb := { cb1 with failures := 0 }, invoked := true }

/-- The behaviour of the wrapped operation (callAPI) as seen through the
context deadline of main (lines 416-418): an invocation started at or
after the deadline fails with the context cancellation error instead of
reaching the provider; before the deadline the abstract provider answers
according to the invocation index k. -/
def ctxCall (deadline : Int) (op : Nat → Except String String) (now : Int) (k : Nat) :
    Except String String :=
  if deadline ≤ now then .error "context deadline exceeded" else op k

/-- State threaded through the retry loop of main (lines 420-443): the
clock, the breaker, the lastErr variable, the resp.Response field, and two
instrumentation fields: the number of times the wrapped operation ran, and
the list of performed backoff sleeps as (start instant, duration) pairs. -/
structure LoopState where
  now      : Int
  breaker  : CircuitBreaker
  lastErr  : Option String
  response : String
  calls    : Nat
  sleeps   : List (Int × Int)
  deriving DecidableEq, Repr

/-- One pass of the retry loop body plus the remaining iterations
(lines 421-439).  rem is the number of iterations still allowed and i the
Go loop index (i plus rem stays equal to the retry budget).  On a nil
error the loop breaks at once, leaving lastErr untouched; on an error it
records it in lastErr and, except after the final iteration, sleeps
(i+1) seconds — a plain time.Sleep, advancing the clock unconditionally. -/
def retryStepGo (retries : Nat) (deadline : Int) (op : Nat → Except String String) :
    Nat → Nat → LoopState → LoopState
  | 0, _, st => st
  | rem + 1, i, st =>
    let fnRes := ctxCall deadline op st.now st.calls
    let d := st.breaker.Do st.now fnRes
    let calls' := st.calls + (if d.invoked then 1 else 0)
    match d.err with
    | none =>
        { st with breaker := d.cb, calls := calls',
                  response := fnRes.toOption.getD st.response }
    | some e =>
        let st' := { st with breaker := d.cb, calls := calls', lastErr := some e }
        if i + 1 < retries then
          let dur := (Int.ofNat (i + 1)) * nsPerSec
          retryStepGo retries deadline op rem (i + 1)
            { st' with now := st'.now + dur, sleeps := st'.sleeps ++ [(st'.now, dur)] }
        else
          retryStepGo retries deadline op rem (i + 1) st'

/-- The whole retry loop started on a fresh breaker at instant t0 with a
retry budget taken from the -r flag (an int in Go: a non-positive budget
yields zero iterations, exactly as the Go for condition i < retries). -/
def retryLoop (retries : Int) (deadline : Int) (op : Nat → Except String String)
    (t0 : Int) : LoopState :=
  retryStepGo retries.toNat deadline op retries.toNat 0
    { now := t0, breaker := NewCircuitBreaker, lastErr := none, response := "",
      calls := 0, sleeps := [] }

/-- The fields of the final Response record that the epilogue of main
inspects (struct Response, lines 40-48; population at lines 441-443): the
error text (empty when lastErr stayed nil) and the response text. -/
structure Outcome where
  response : String
  error    : String
  deriving DecidableEq, Repr

/-- Lines 441-443 of main: resp.Error is set to the lastErr message when
lastErr is non-nil, and left at the empty string otherwise. -/
def mkOutcome (st : LoopState) : Outcome :=
  { response := st.response
    error := match st.lastErr with | some e => e | none => "" }

/-- Lines 448-452 of main: only when resp.Error is empty and a session id
was given, the raw prompt is appended as a user turn and the response text
as an assistant turn (each append truncating to the last 20 turns), and
the session is persisted.  Returns the resulting session and whether a
save was performed. -/
def finishInvocation (s : Session) (sessionID rawPrompt : String) (o : Outcome) :
    Session × Bool :=
  if o.error = "" ∧ sessionID ≠ "" then
    (((s.addMessage "user" rawPrompt).addMessage "assistant" o.response), true)
  else
    (s, false)

/-- The non-JSON output path of main (lines 457-465 and 467-469): on a
non-empty error the process exits with status 1 printing nothing to
stdout; otherwise fmt.Println writes the response text plus a newline and
the process exits with status 0. -/
def renderPlain (o : Outcome) : Nat × String :=
  if o.error ≠ "" then (1, "") else (0, o.response ++ "\n")

/-- Dynamic JSON values as produced by json.Unmarshal into a Go
interface value: strings, numbers, booleans, null, arrays and objects
(an object is kept as a key-value list; Go maps are unordered but the
extraction code only ever looks keys up).  JSON numbers land in Go as
float64; no claim touches a numeric field, so integers suffice here. -/
inductive Json where
  | str  : String → Json
  | num  : Int → Json
  | bool : Bool → Json
  | null : Json
  | arr  : List Json → Json
  | obj  : List (String × Json) → Json

/-- Object field lookup: result of indexing a Go map by key
(none when the key is absent or the value is not an object). -/
def Json.get? : Json → String → Option Json
  | .obj kvs, k => (kvs.find? (fun p => p.1 = k)).map (fun p => p.2)
  | _, _ => none

/-- Go type assertion to map[string]interface value. -/
def Json.asObj? : Json → Option (List (String × Json))
  | .obj kvs => some kvs
  | _ => none

/-- Go type assertion to a slice of interface values. -/
def Json.asArr? : Json → Option (List Json)
  | .arr xs => some xs
  | _ => none

/-- Go type assertion to string. -/
def Json.asStr? : Json → Option String
  | .str s => some s
  | _ => none

/-- Go fmt rendering with the v verb of the dynamic value found under the
message key of an upstream error object (line 270 and line 279): a string
renders as itself and a missing key (a nil interface) as "<nil>".  The
remaining shapes never occur in any claim; they are rendered by simple
approximations of the Go formatting. -/
def goFmtV : Option Json → String
  | some (.str s) => s
  | some (.num n) => toString n
  | some (.bool b) => if b then "true" else "false"
  | some .null => "<nil>"
  | some (.arr _) => "[...]"
  | some (.obj _) => "map[...]"
  | none => "<nil>"

/-- Result of one callAPI body extraction: a response text, an error
message, or a Go runtime panic (the source asserts the first array
element to be a map without a comma-ok guard at lines 273 and 282). -/
inductive CallOutcome where
  | ok (text : String)
  | err (msg : String)
  | panicked
  deriving DecidableEq, Repr

/-- Response extraction of callAPI (lines 268-290) on the unmarshalled
body.  Anthropic branch: a map-shaped error field wins; then the text of
the first content element; otherwise the format error.  Every other
provider type takes the else branch: a map-shaped error field wins; then
choices[0].message.content; otherwise the format error. -/
def parseWire (cfgType : String) (result : Json) : CallOutcome :=
  if cfgType = "anthropic" then
    match (result.get? "error").bind Json.asObj? with
    | some errObj => .err (goFmtV ((Json.obj errObj).get? "message"))
    | none =>
      match (result.get? "content").bind Json.asArr? with
      | some (c0 :: _) =>
        match c0.asObj? with
        | none => .panicked
        | some kvs =>
          match ((Json.obj kvs).get? "text").bind Json.asStr? with
          | some text => .ok text
          | none => .err "unexpected response format"
      | _ => .err "unexpected response format"
  else
    match (result.get? "error").bind Json.asObj? with
    | some errObj => .err (goFmtV ((Json.obj errObj).get? "message"))
    | none =>
      match (result.get? "choices").bind Json.asArr? with
      | some (c0 :: _) =>
        match c0.asObj? with
        | none => .panicked
        | some kvs =>
          match ((Json.obj kvs).get? "message").bind Json.asObj? with
          | some msgObj =>
            match ((Json.obj msgObj).get? "content").bind Json.asStr? with
            | some content => .ok content
            | none => .err "unexpected response format"
          | none => .err "unexpected response format"
      | _ => .err "unexpected response format"

/-- callAPI (lines 205-291) with the network abstracted: the switch on the
provider type comes first and its default case returns the unsupported
provider error before any request is built or sent; for the known types
(anthropic, openai, and the empty string defaulting to openai) exactly one
outbound call is made, whose result wire is either a transport error or
the unmarshalled response body handed to the extraction.  The second
component counts outbound network call attempts. -/
def callAPI (cfgType : String) (wire : Except String Json) : CallOutcome × Nat :=
  if cfgType = "anthropic" ∨ cfgType = "openai" ∨ cfgType = "" then
    match wire with
    | .error e => (.err e, 1)
    | .ok body => (parseWire cfgType body, 1)
  else
    (.err ("unknown provider type: " ++ cfgType), 0)

/-- Rendering of one prior turn, written after the specification text:
a User-role turn renders as "Human: " plus content plus a blank line, an
Assistant-role turn as "Assistant: " plus content plus a blank line (the
leftover branch is never reached for the two specified roles). -/
def renderTurnSpec (m : Message) : String :=
  if m.role = "user" then "Human: " ++ m.content ++ "\n\n"
  else if m.role = "assistant" then "Assistant: " ++ m.content ++ "\n\n"
  else ""

/-- Concatenation of the rendered prior turns in insertion order, written
after the specification text. -/
def renderHistorySpec : List Message → String
  | [] => ""
  | m :: rest => renderTurnSpec m ++ renderHistorySpec rest

/-- The foldl of buildPrompt equals the accumulator followed by the
spec-side rendering, for histories whose roles are the two legal ones. -/
theorem foldl_build (h : List Message) (acc : String)
    (hr : ∀ m ∈ h, m.role = "user" ∨ m.role = "assistant") :
    h.foldl
      (fun a msg =>
        a ++ (if msg.role = "user" then "Human: " else "Assistant: ")
          ++ msg.content ++ "\n\n") acc
      = acc ++ renderHistorySpec h := by
  induction h generalizing acc with
  | nil => simp [renderHistorySpec, String.append_empty]
  | cons m t ih =>
    have hm := hr m (List.mem_cons_self m t)
    have ht : ∀ x ∈ t, x.role = "user" ∨ x.role = "assistant" :=
      fun x hx => hr x (List.mem_cons_of_mem m hx)
    simp only [List.foldl_cons, renderHistorySpec]
    rw [ih _ ht]
    rcases hm with h1 | h1
    · rw [if_pos h1]
      unfold renderTurnSpec
      rw [if_pos h1]
      simp [String.append_assoc]
    · have hne : ¬ m.role = "user" := by rw [h1]; decide
      rw [if_neg hne]
      unfold renderTurnSpec
      rw [if_neg hne, if_pos h1]
      simp [String.append_assoc]

/-- Claim C5: buildPrompt returns the new prompt unchanged on an empty
history; on any non-empty history of User/Assistant turns it returns the
spec-side rendering of every turn in insertion order followed by
"Human: " plus the new prompt, with nothing after it.  (As a Lean
function of the session and the prompt it is pure and deterministic by
construction.) -/
theorem claim_C5_buildPrompt :
    (∀ p : String, Session.buildPrompt ⟨[]⟩ p = p) ∧
    (∀ (h : List Message) (p : String), h ≠ [] →
      (∀ m ∈ h, m.role = "user" ∨ m.role = "assistant") →
      Session.buildPrompt ⟨h⟩ p = renderHistorySpec h ++ ("Human: " ++ p)) := by
  constructor
  · intro p
    rfl
  · intro h p hne hr
    unfold Session.buildPrompt
    have hlen : ¬ (Session.mk h).history.length = 0 := by
      simpa using fun hz => hne (List.length_eq_zero.mp hz)
    rw [if_neg hlen]
    show (h.foldl _ "") ++ "Human: " ++ p = _
    rw [foldl_build h "" hr, String.empty_append, String.append_assoc]

/-- Claim C5 witness: the end-to-end example of the specification — a
session holding the single user turn "hi" with new prompt "how are you"
flattens to the rendered turn followed by the trailing human prompt. -/
theorem claim_C5_buildPrompt_witness :
    Session.buildPrompt ⟨[⟨"user", "hi"⟩]⟩ "how are you"
      = renderHistorySpec [⟨"user", "hi"⟩] ++ ("Human: " ++ "how are you") :=
  claim_C5_buildPrompt.2 [⟨"user", "hi"⟩] "how are you" (by decide) (by decide)

/-- The history produced by addMessage, in closed form: append, then drop
down to the final 20 entries. -/
theorem addMessage_history (s : Session) (r c : String) :
    (s.addMessage r c).history
      = (s.history ++ [(⟨r, c⟩ : Message)]).drop ((s.history.length + 1) - 20) := by
  unfold Session.addMessage
  by_cases h20 : (s.history ++ [(⟨r, c⟩ : Message)]).length > 20
  · rw [if_pos h20]
    simp [List.length_append]
  · rw [if_neg h20]
    have hz : s.history.length + 1 - 20 = 0 := by
      simp only [List.length_append, List.length_cons, List.length_nil] at h20
      omega
    rw [hz, List.drop_zero]

/-- Claim C6: addMessage keeps every history at 20 entries or fewer, and
appending to an exactly-20-entry history drops the oldest entry and keeps
the rest in order, yielding exactly 20 entries again. -/
theorem claim_C6_addMessage_truncation :
    (∀ (s : Session) (r c : String), (s.addMessage r c).history.length ≤ 20) ∧
    (∀ (s : Session) (r c : String), s.history.length = 20 →
      (s.addMessage r c).history = s.history.drop 1 ++ [(⟨r, c⟩ : Message)] ∧
      (s.addMessage r c).history.length = 20) := by
  constructor
  · intro s r c
    rw [addMessage_history]
    simp only [List.length_drop, List.length_append, List.length_cons,
      List.length_nil]
    omega
  · intro s r c h20
    have hh : (s.addMessage r c).history
        = s.history.drop 1 ++ [(⟨r, c⟩ : Message)] := by
      rw [addMessage_history, h20]
      rw [List.drop_append_eq_append_drop]
      simp [h20]
    refine ⟨hh, ?_⟩
    rw [hh]
    simp [List.length_drop, h20]

/-- Claim C6 witness: a concrete 20-entry history, appended to, drops its
oldest entry and stays at 20 entries. -/
theorem claim_C6_addMessage_truncation_witness :
    (Session.addMessage ⟨(List.range 20).map (fun i => ⟨"user", toString i⟩)⟩
        "user" "new").history
      = ((List.range 20).map (fun i => (⟨"user", toString i⟩ : Message))).drop 1
          ++ [⟨"user", "new"⟩] ∧
    (Session.addMessage ⟨(List.range 20).map (fun i => ⟨"user", toString i⟩)⟩
        "user" "new").history.length = 20 :=
  claim_C6_addMessage_truncation.2
    ⟨(List.range 20).map (fun i => ⟨"user", toString i⟩)⟩ "user" "new" (by decide)

/-- Two consecutive addMessage calls on a history within the 20-entry
invariant: both new turns are appended and the history is cut down to its
final 20 entries. -/
theorem addMessage_twice (s : Session) (r1 c1 r2 c2 : String)
    (hle : s.history.length ≤ 20) :
    ((s.addMessage r1 c1).addMessage r2 c2).history
      = (s.history ++ [(⟨r1, c1⟩ : Message), ⟨r2, c2⟩]).drop
          ((s.history.length + 2) - 20) := by
  rw [addMessage_history, addMessage_history]
  have e3 : (s.history ++ [(⟨r1, c1⟩ : Message)]) ++ [(⟨r2, c2⟩ : Message)]
      = s.history ++ [(⟨r1, c1⟩ : Message), ⟨r2, c2⟩] := by
    simp
  rcases Nat.lt_or_ge s.history.length 20 with hlt | hge
  · have e1 : s.history.length + 1 - 20 = 0 := by omega
    rw [e1, List.drop_zero]
    have e2 : (s.history ++ [(⟨r1, c1⟩ : Message)]).length + 1 - 20
        = s.history.length + 2 - 20 := by
      simp only [List.length_append, List.length_cons, List.length_nil]
    rw [e2, e3]
  · have h20 : s.history.length = 20 := le_antisymm hle hge
    have e1 : s.history.length + 1 - 20 = 1 := by omega
    rw [e1]
    have e4 : (List.drop 1 (s.history ++ [(⟨r1, c1⟩ : Message)])).length = 20 := by
      simp only [List.length_drop, List.length_append, List.length_cons,
        List.length_nil, h20]
    rw [e4]
    have e5 : (20 : Nat) + 1 - 20 = 1 := by omega
    rw [e5]
    have e6 : List.drop 1 ((s.history ++ [(⟨r1, c1⟩ : Message)])
          ++ [(⟨r2, c2⟩ : Message)])
        = List.drop 1 (s.history ++ [(⟨r1, c1⟩ : Message)])
          ++ [(⟨r2, c2⟩ : Message)] := by
      rw [List.drop_append_eq_append_drop]
      have hz : 1 - (s.history ++ [(⟨r1, c1⟩ : Message)]).length = 0 := by
        simp only [List.length_append, List.length_cons, List.length_nil]
        omega
      rw [hz, List.drop_zero]
    rw [← e6, List.drop_drop]
    have e7 : s.history.length + 2 - 20 = 2 := by omega
    have e8 : (1 : Nat) + 1 = 2 := by omega
    rw [e7, e3, e8]

/-- Claim C3: the epilogue of main appends exactly one user turn holding
the raw prompt and one assistant turn holding the response text, truncated
to the most recent 20 turns, and persists — exactly when the outcome error
is empty and a session id was given; an invocation whose outcome carries
an error leaves the session untouched and persists nothing. -/
theorem claim_C3_session_persist_only_on_success :
    ∀ (s : Session) (sid p : String) (o : Outcome), s.history.length ≤ 20 →
      ((o.error = "" ∧ sid ≠ "") →
        finishInvocation s sid p o
          = (⟨(s.history ++ [(⟨"user", p⟩ : Message), ⟨"assistant", o.response⟩]).drop
                ((s.history.length + 2) - 20)⟩, true)) ∧
      (o.error ≠ "" → finishInvocation s sid p o = (s, false)) := by
  intro s sid p o hle
  constructor
  · intro hok
    unfold finishInvocation
    rw [if_pos hok]
    have := addMessage_twice s "user" p "assistant" o.response hle
    exact congrArg (fun h => ((⟨h⟩ : Session), true)) this
  · intro herr
    unfold finishInvocation
    rw [if_neg (fun hok => herr hok.1)]

/-- Claim C3 witness: a successful outcome on a one-turn session with a
session id appends the user and assistant turns and persists. -/
theorem claim_C3_session_persist_only_on_success_witness :
    finishInvocation ⟨[⟨"user", "hi"⟩]⟩ "sess" "how" ⟨"fine", ""⟩
      = (⟨[⟨"user", "hi"⟩, ⟨"user", "how"⟩, ⟨"assistant", "fine"⟩]⟩, true) := by
  have h := (claim_C3_session_persist_only_on_success
    ⟨[⟨"user", "hi"⟩]⟩ "sess" "how" ⟨"fine", ""⟩ (by decide)).1
    ⟨rfl, by decide⟩
  simpa using h

/-- The cooldown reset of CircuitBreaker.Do is a no-op on a breaker whose
failure counter is already 0. -/
theorem resetIfStale_zero (cb : CircuitBreaker) (h0 : cb.failures = 0) :
    { cb with failures := 0 } = cb := by
  cases cb
  simp only at h0
  simp [h0]

/-- A closed breaker (counter strictly below threshold, cooldown not yet
elapsed) passes a failing operation through: the error is returned, the
counter is incremented and the failure instant stamped. -/
theorem do_fail_closed (cb : CircuitBreaker) (now : Int) (e : String)
    (hstale : ¬ cb.timeout < now - cb.lastFail)
    (hcl : cb.failures < cb.threshold) :
    cb.Do now (.error e)
      = { err := some e
          cb := { cb with failures := cb.failures + 1, lastFail := now }
          invoked := true } := by
  unfold CircuitBreaker.Do
  rw [if_neg hstale, if_neg (by omega)]

/-- Claim C4: a fresh breaker is closed with zero failures, threshold 3
and a 5-minute cooldown; three consecutive failures (each within the
cooldown of the previous one) make the fourth attempt come back as
"circuit open" without the wrapped operation running; on every attempt a
failure counter older than the cooldown is cleared before the open check,
so any attempt made after the cooldown has elapsed is let through
regardless of the prior failure count; and a successful attempt resets
the counter to 0. -/
theorem claim_C4_circuit_breaker :
    (NewCircuitBreaker.failures = 0 ∧ NewCircuitBreaker.threshold = 3 ∧
      NewCircuitBreaker.timeout = 5 * 60 * nsPerSec) ∧
    (∀ (t1 t2 t3 t4 : Int) (e1 e2 e3 : String) (fn : Except String String),
      t2 - t1 ≤ NewCircuitBreaker.timeout →
      t3 - t2 ≤ NewCircuitBreaker.timeout →
      t4 - t3 ≤ NewCircuitBreaker.timeout →
      ((((NewCircuitBreaker.Do t1 (.error e1)).cb.Do t2 (.error e2)).cb.Do t3
          (.error e3)).cb.Do t4 fn).err = some "circuit open" ∧
      ((((NewCircuitBreaker.Do t1 (.error e1)).cb.Do t2 (.error e2)).cb.Do t3
          (.error e3)).cb.Do t4 fn).invoked = false) ∧
    (∀ (cb : CircuitBreaker) (now : Int) (fn : Except String String),
      0 < cb.threshold → cb.timeout < now - cb.lastFail →
      (cb.Do now fn).invoked = true) ∧
    (∀ (cb : CircuitBreaker) (now : Int) (t : String),
      (cb.Do now (.ok t)).err = none → ((cb.Do now (.ok t)).cb).failures = 0) := by
  refine ⟨⟨rfl, rfl, rfl⟩, ?_, ?_, ?_⟩
  · intro t1 t2 t3 t4 e1 e2 e3 fn h21 h32 h43
    have hT : NewCircuitBreaker.timeout = 300000000000 := by
      norm_num [NewCircuitBreaker, nsPerSec]
    rw [hT] at h21 h32 h43
    have hd1 : NewCircuitBreaker.Do t1 (.error e1)
        = (⟨some e1, ⟨1, t1, 3, 300000000000⟩, true⟩ : DoResult) := by
      unfold CircuitBreaker.Do
      rw [resetIfStale_zero NewCircuitBreaker rfl, ite_self]
      rfl
    have hd2 : CircuitBreaker.Do ⟨1, t1, 3, 300000000000⟩ t2 (.error e2)
        = (⟨some e2, ⟨2, t2, 3, 300000000000⟩, true⟩ : DoResult) :=
      do_fail_closed ⟨1, t1, 3, 300000000000⟩ t2 e2
        (show ¬ (300000000000 : Int) < t2 - t1 from by omega)
        (show (1 : Nat) < 3 from by omega)
    have hd3 : CircuitBreaker.Do ⟨2, t2, 3, 300000000000⟩ t3 (.error e3)
        = (⟨some e3, ⟨3, t3, 3, 300000000000⟩, true⟩ : DoResult) :=
      do_fail_closed ⟨2, t2, 3, 300000000000⟩ t3 e3
        (show ¬ (300000000000 : Int) < t3 - t2 from by omega)
        (show (2 : Nat) < 3 from by omega)
    have hd4 : CircuitBreaker.Do ⟨3, t3, 3, 300000000000⟩ t4 fn
        = (⟨some "circuit open", ⟨3, t3, 3, 300000000000⟩, false⟩ : DoResult) := by
      unfold CircuitBreaker.Do
      rw [if_neg (show ¬ ((⟨3, t3, 3, 300000000000⟩ : CircuitBreaker).timeout
        < t4 - (⟨3, t3, 3, 300000000000⟩ : CircuitBreaker).lastFail) from by
          show ¬ (300000000000 : Int) < t4 - t3
          omega)]
      rfl
    rw [hd1,
      show (⟨some e1, ⟨1, t1, 3, 300000000000⟩, true⟩ : DoResult).cb
        = ⟨1, t1, 3, 300000000000⟩ from rfl, hd2,
      show (⟨some e2, ⟨2, t2, 3, 300000000000⟩, true⟩ : DoResult).cb
        = ⟨2, t2, 3, 300000000000⟩ from rfl, hd3,
      show (⟨some e3, ⟨3, t3, 3, 300000000000⟩, true⟩ : DoResult).cb
        = ⟨3, t3, 3, 300000000000⟩ from rfl, hd4]
    exact ⟨rfl, rfl⟩
  · intro cb now fn hth hstale
    unfold CircuitBreaker.Do
    rw [if_pos hstale]
    have hcond : ¬ ({ cb with failures := 0 } : CircuitBreaker).threshold
        ≤ ({ cb with failures := 0 } : CircuitBreaker).failures := by
      show ¬ cb.threshold ≤ 0
      omega
    rw [if_neg hcond]
    cases fn <;> rfl
  · intro cb now t
    unfold CircuitBreaker.Do
    by_cases hstale : cb.timeout < now - cb.lastFail
    · rw [if_pos hstale]
      by_cases hopen : ({ cb with failures := 0 } : CircuitBreaker).threshold
          ≤ ({ cb with failures := 0 } : CircuitBreaker).failures
      · rw [if_pos hopen]
        intro h
        simp at h
      · rw [if_neg hopen]
        intro _
        rfl
    · rw [if_neg hstale]
      by_cases hopen : cb.threshold ≤ cb.failures
      · rw [if_pos hopen]
        intro h
        simp at h
      · rw [if_neg hopen]
        intro _
        rfl

/-- Claim C4 witness: three failures at seconds 0, 1, 2 followed by an
attempt at second 3 come back as "circuit open" with the operation not
invoked; a stale breaker lets an attempt through; a success clears the
counter. -/
theorem claim_C4_circuit_breaker_witness :
    ((((NewCircuitBreaker.Do 0 (.error "a")).cb.Do nsPerSec (.error "b")).cb.Do
        (2 * nsPerSec) (.error "c")).cb.Do (3 * nsPerSec)
        (.error "d")).err = some "circuit open" ∧
    (({ failures := 7, lastFail := 0, threshold := 3,
        timeout := 5 * 60 * nsPerSec } : CircuitBreaker).Do
        (6 * 60 * nsPerSec) (.ok "y")).invoked = true ∧
    ((NewCircuitBreaker.Do 0 (.ok "z")).cb).failures = 0 := by
  refine ⟨?_, ?_, ?_⟩
  · exact (claim_C4_circuit_breaker.2.1 0 nsPerSec (2 * nsPerSec) (3 * nsPerSec)
      "a" "b" "c" (.error "d") (by decide) (by decide) (by decide)).1
  · exact claim_C4_circuit_breaker.2.2.1 _ (6 * 60 * nsPerSec) (.ok "y")
      (by decide) (by decide)
  · exact claim_C4_circuit_breaker.2.2.2 NewCircuitBreaker 0 "z" (by decide)

/-- Claim C8: a provider type that is neither "anthropic" nor "openai"
nor unset makes callAPI fail with the unsupported-provider error out of
the switch default, with zero outbound network call attempts, whatever
the network would have answered. -/
theorem claim_C8_unknown_provider_no_network :
    ∀ (t : String) (wire : Except String Json),
      ¬ (t = "anthropic" ∨ t = "openai" ∨ t = "") →
      callAPI t wire = (.err ("unknown provider type: " ++ t), 0) := by
  intro t wire h
  unfold callAPI
  rw [if_neg h]

/-- Claim C8 witness: the provider type "custom" (named in the config
comment but not handled) is rejected without a network call. -/
theorem claim_C8_unknown_provider_no_network_witness :
    callAPI "custom" (.ok (.obj []))
      = (.err ("unknown provider type: " ++ "custom"), 0) :=
  claim_C8_unknown_provider_no_network "custom" (.ok (.obj [])) (by decide)

/-- Claim C9: the per-provider response extraction round-trips — the
Anthropic-kind body with a content array parses to the success text, the
error body surfaces the upstream message, the OpenAI-kind choices body
parses to its message content, and any body carrying none of the error,
content or choices fields fails with the format error. -/
theorem claim_C9_parse_round_trip :
    parseWire "anthropic"
        (.obj [("content", .arr [.obj [("text", .str "hello")]])]) = .ok "hello" ∧
    parseWire "anthropic"
        (.obj [("error", .obj [("message", .str "bad key")])]) = .err "bad key" ∧
    parseWire "openai"
        (.obj [("choices", .arr [.obj [("message", .obj [("content", .str "hi")])]])])
      = .ok "hi" ∧
    (∀ (t : String) (j : Json), j.get? "error" = none → j.get? "content" = none →
      j.get? "choices" = none → parseWire t j = .err "unexpected response format") := by
  refine ⟨rfl, rfl, rfl, ?_⟩
  intro t j he hc hch
  unfold parseWire
  by_cases ht : t = "anthropic"
  · rw [if_pos ht, he, hc]
    rfl
  · rw [if_neg ht, he, hch]
    rfl

/-- Claim C9 witness: the empty JSON object has none of the recognised
fields and parses to the format error. -/
theorem claim_C9_parse_round_trip_witness :
    parseWire "anthropic" (.obj []) = .err "unexpected response format" :=
  claim_C9_parse_round_trip.2.2.2 "anthropic" (.obj []) rfl rfl rfl

/-- Claim C10: a zero or negative retry budget runs zero loop iterations;
the operation is never invoked, lastErr stays nil, and the invocation is
reported as a success with empty error and empty response — the non-JSON
output path prints a bare newline and exits with status 0. -/
theorem claim_C10_nonpositive_retries_empty_success :
    ∀ (r : Int), r ≤ 0 → ∀ (deadline t0 : Int) (op : Nat → Except String String),
      (retryLoop r deadline op t0).calls = 0 ∧
      mkOutcome (retryLoop r deadline op t0) = ⟨"", ""⟩ ∧
      renderPlain (mkOutcome (retryLoop r deadline op t0)) = (0, "\n") := by
  intro r hr deadline t0 op
  have hz : r.toNat = 0 := Int.toNat_of_nonpos hr
  unfold retryLoop
  rw [hz]
  exact ⟨rfl, rfl, rfl⟩

/-- Claim C10 witness: a budget of -1 performs no call and reports an
empty success with exit status 0 and a bare newline on stdout. -/
theorem claim_C10_nonpositive_retries_empty_success_witness :
    (retryLoop (-1) 7 (fun _ => Except.ok "x") 5).calls = 0 ∧
    mkOutcome (retryLoop (-1) 7 (fun _ => Except.ok "x") 5) = ⟨"", ""⟩ ∧
    renderPlain (mkOutcome (retryLoop (-1) 7 (fun _ => Except.ok "x") 5))
      = (0, "\n") :=
  claim_C10_nonpositive_retries_empty_success (-1) (by decide) 7 5
    (fun _ => Except.ok "x")

/-- A provider behaviour failing its first invocation with "boom" and
answering "ok" from the second invocation on. -/
def opFailThenOk : Nat → Except String String :=
  fun k => if k = 0 then .error "boom" else .ok "ok"

/-- Claim C1 (evidence for the code bug): with a budget of 3 attempts
against an operation that fails once and then succeeds (N = 1 < 3), the
loop does stop at the first success and the operation runs exactly
N+1 = 2 times — but the surfaced outcome still carries the first
attempt's failure "boom" beside the response "ok", because main's lastErr
variable is never cleared when a later attempt succeeds; the claimed
clean success (response with no error) does not hold. -/
theorem claim_C1_retry_eventual_success_not_clean :
    (retryLoop 3 (30 * nsPerSec) opFailThenOk 0).calls = 2 ∧
    (retryLoop 3 (30 * nsPerSec) opFailThenOk 0).response = "ok" ∧
    mkOutcome (retryLoop 3 (30 * nsPerSec) opFailThenOk 0)
      = { response := "ok", error := "boom" } := by
  refine ⟨rfl, rfl, rfl⟩

/-- Claim C2 (evidence for the code bug): the outcome of the same
recovered run has the response field and the error field non-empty at
once, so the final record is not the claimed mutually exclusive tagged
sum. -/
theorem claim_C2_outcome_fields_not_mutually_exclusive :
    (mkOutcome (retryLoop 3 (30 * nsPerSec) opFailThenOk 0)).response ≠ "" ∧
    (mkOutcome (retryLoop 3 (30 * nsPerSec) opFailThenOk 0)).error ≠ "" := by
  refine ⟨by decide, by decide⟩

/-- Claim C7 counterexample: with the deadline one second after start
(timeout flag 1) and an always-failing operation under a budget of 3,
the first backoff sleep ends exactly at the deadline and the second
backoff sleep starts at the deadline and still runs its full 2 seconds:
the recorded sleeps are (0, 1s) and (1s, 2s) and the clock ends at 3s,
two full seconds past the deadline — an inter-retry sleep outlives the
per-invocation deadline instead of aborting, because the loop uses a
plain time.Sleep that ignores the context. -/
theorem claim_C7_sleep_outlives_deadline_cex :
    (retryLoop 3 nsPerSec (fun _ => .error "boom") 0).sleeps
      = [(0, nsPerSec), (nsPerSec, 2 * nsPerSec)] ∧
    (retryLoop 3 nsPerSec (fun _ => .error "boom") 0).now = 3 * nsPerSec ∧
    nsPerSec < nsPerSec + 2 * nsPerSec := by
  refine ⟨by decide, by decide, by decide⟩

/-- The retry loop never clips the clock at the deadline: the elapsed
time always equals the combined full durations of the recorded sleeps. -/
theorem retryStepGo_now_eq_sum (retries : Nat) (deadline : Int)
    (op : Nat → Except String String) :
    ∀ (rem i : Nat) (st : LoopState),
      (retryStepGo retries deadline op rem i st).now
          - ((retryStepGo retries deadline op rem i st).sleeps.map Prod.snd).sum
        = st.now - (st.sleeps.map Prod.snd).sum := by
  intro rem
  induction rem with
  | zero => intro i st; rfl
  | succ n ih =>
    intro i st
    rw [retryStepGo]
    cases hd : (st.breaker.Do st.now (ctxCall deadline op st.now st.calls)).err with
    | none =>
      simp only [hd]
    | some e =>
      simp only [hd]
      by_cases hi : i + 1 < retries
      · rw [if_pos hi, ih]
        simp only [List.map_append, List.map_cons, List.map_nil,
          List.sum_append, List.sum_cons, List.sum_nil]
        omega
      · rw [if_neg hi, ih]

/-- Claim C7 amended: the single deadline fixed at invocation start does
govern every attempt — an attempt made at or past the deadline fails with
the context cancellation error instead of reaching the provider — but the
backoff sleeps are not governed by it: every recorded sleep elapses in
full, the final clock always being the start instant plus the sum of all
backoff durations, regardless of the deadline. -/
theorem claim_C7_amended_deadline_governs_attempts_not_sleeps :
    (∀ (retries deadline : Int) (op : Nat → Except String String) (t0 : Int),
      (retryLoop retries deadline op t0).now
        = t0 + ((retryLoop retries deadline op t0).sleeps.map Prod.snd).sum) ∧
    (∀ (deadline now : Int) (op : Nat → Except String String) (k : Nat),
      deadline ≤ now → ctxCall deadline op now k
        = .error "context deadline exceeded") := by
  constructor
  · intro retries deadline op t0
    have h := retryStepGo_now_eq_sum retries.toNat deadline op retries.toNat 0
      { now := t0, breaker := NewCircuitBreaker, lastErr := none, response := "",
        calls := 0, sleeps := [] }
    unfold retryLoop
    simp only [List.map_nil, List.sum_nil] at h
    omega
  · intro deadline now op k h
    unfold ctxCall
    rw [if_pos h]

/-- Claim C7 amended witness: the counterexample run elapses the full
3 seconds of backoff, and an attempt at instant 5 against deadline 0
fails with the context cancellation error. -/
theorem claim_C7_amended_deadline_governs_attempts_not_sleeps_witness :
    (retryLoop 3 nsPerSec (fun _ => Except.error "boom") 0).now
      = 0 + (((retryLoop 3 nsPerSec (fun _ => Except.error "boom") 0).sleeps.map
          Prod.snd).sum) ∧
    ctxCall 0 (fun _ => Except.ok "hi") 5 0
      = .error "context deadline exceeded" :=
  ⟨claim_C7_amended_deadline_governs_attempts_not_sleeps.1 3 nsPerSec
      (fun _ => Except.error "boom") 0,
    claim_C7_amended_deadline_governs_attempts_not_sleeps.2 0 5
      (fun _ => Except.ok "hi") 0 (by decide)⟩

end Sigo
